import Mathlib

/-
  Verification development for the TalkToData adapter / validator layer.

  The TypeScript sources are shallowly embedded: strings are lists of
  characters, regular-expression tests are spelled out as decidable
  scans, thrown AppError values become the error side of Except, and the
  stateful adapter / route code becomes explicit state passing.  The
  character model is ASCII-faithful, which covers every comparison the
  source performs (all keywords and markers are ASCII).
-/

set_option maxHeartbeats 1000000
set_option maxRecDepth 8192

namespace TalkToData

/-- Character strings are modelled as lists of characters. -/
abbrev Str := List Char

/-- Convert a Lean string literal into the list-of-characters model. -/
def str (s : String) : Str := s.data

/-- The ASCII fragment of the JavaScript whitespace class (regex \s, trim). -/
def jsWhitespace (c : Char) : Bool :=
  c = ' ' || c = '\t' || c = '\n' || c = '\r' || c = '\x0b' || c = '\x0c'

/-- Lower-case a string character-wise (toLowerCase on ASCII text). -/
def lowerStr (s : Str) : Str := s.map Char.toLower

/-- Upper-case a string character-wise (toUpperCase on ASCII text). -/
def upperStr (s : Str) : Str := s.map Char.toUpper

/-- JavaScript String.prototype.trim: drop leading and trailing whitespace. -/
def trimList (s : Str) : Str :=
  ((s.reverse.dropWhile jsWhitespace).reverse).dropWhile jsWhitespace

/-- A regex word character (\w): ASCII letter, digit or underscore. -/
def isWordChar (c : Char) : Bool := c.isAlpha || c.isDigit || c = '_'

/-- Substring test: pat occurs contiguously inside s (String.includes). -/
def containsSub (pat s : Str) : Bool := s.tails.any (fun t => pat.isPrefixOf t)

/-- Equality on Except values is decidable when it is on both sides. -/
instance {α β : Type} [DecidableEq α] [DecidableEq β] : DecidableEq (Except α β) := fun x y =>
  match x, y with
  | .ok a, .ok b =>
      if h : a = b then isTrue (by rw [h]) else isFalse (by intro hc; cases hc; exact h rfl)
  | .error a, .error b =>
      if h : a = b then isTrue (by rw [h]) else isFalse (by intro hc; cases hc; exact h rfl)
  | .ok _, .error _ => isFalse (by intro hc; cases hc)
  | .error _, .ok _ => isFalse (by intro hc; cases hc)

/- ------------------------------------------------------------------
   src/lib/validators/sql.ts
   ------------------------------------------------------------------ -/

/-- DANGEROUS_KEYWORDS from validators/sql.ts, in source order. -/
def DANGEROUS_KEYWORDS : List Str :=
  [str "INSERT", str "UPDATE", str "DELETE", str "DROP", str "CREATE", str "ALTER",
   str "TRUNCATE", str "GRANT", str "REVOKE", str "EXECUTE", str "EXEC", str "CALL",
   str "INTO"]

/-- Case-insensitive match of keyword kw at index i of sql, with regex
word boundaries (\b) required on both sides. -/
def matchesKeywordAt (sql kw : Str) (i : Nat) : Bool :=
  (lowerStr ((sql.drop i).take kw.length) == lowerStr kw)
  && (i == 0 || !isWordChar (sql.getD (i - 1) ' '))
  && (i + kw.length == sql.length || !isWordChar (sql.getD (i + kw.length) ' '))

/-- Whether the regex \bKW\b with the i flag matches sql: the whole-word
dangerous-keyword test of validateSql. -/
def containsWholeWord (kw sql : Str) : Bool :=
  (List.range sql.length).any (fun i => matchesKeywordAt sql kw i)

/-- The mutating keywords of the first injection pattern, lower-cased. -/
def INJECTION_CHAIN_KEYWORDS : List Str :=
  [str "insert", str "update", str "delete", str "drop", str "create", str "alter",
   str "truncate"]

/-- First injection pattern: a semicolon followed by optional whitespace
and one of the mutating keywords (case-insensitive). -/
def semicolonInjection (sql : Str) : Bool :=
  sql.tails.any fun t =>
    match t with
    | ';' :: rest =>
        INJECTION_CHAIN_KEYWORDS.any fun k =>
          k.isPrefixOf (lowerStr (rest.dropWhile jsWhitespace))
    | _ => false

/-- Second injection pattern: a line comment (two hyphens) anywhere. -/
def hasLineComment (sql : Str) : Bool := containsSub (str "--") sql

/-- Third injection pattern: a block comment, an opener with a closer
starting at least two characters later. -/
def hasBlockComment (sql : Str) : Bool :=
  sql.tails.any fun t =>
    match t with
    | '/' :: '*' :: rest => containsSub (str "*/") rest
    | _ => false

/-- Fourth injection pattern: UNION, whitespace, optionally ALL and
whitespace, then SELECT (case-insensitive). -/
def hasUnionSelect (sql : Str) : Bool :=
  (lowerStr sql).tails.any fun t =>
    (str "union").isPrefixOf t
    && (match (t.drop 5).head? with
        | some c => jsWhitespace c
        | none => false)
    && (let r2 := (t.drop 5).dropWhile jsWhitespace
        (str "select").isPrefixOf r2
        || ((str "all").isPrefixOf r2
            && (match (r2.drop 3).head? with
                | some c => jsWhitespace c
                | none => false)
            && (str "select").isPrefixOf ((r2.drop 3).dropWhile jsWhitespace)))

/-- Whether any INJECTION_PATTERNS entry matches sql. -/
def hasInjectionPattern (sql : Str) : Bool :=
  semicolonInjection sql || hasLineComment sql || hasBlockComment sql || hasUnionSelect sql

/-- The error codes of utils/errors.ts. -/
inductive ErrorCode where
  | CONNECTION_FAILED
  | QUERY_TIMEOUT
  | INVALID_SQL
  | DANGEROUS_QUERY
  | LLM_ERROR
  | NO_CONNECTION
  | VALIDATION_ERROR
  | UNKNOWN
  deriving DecidableEq, Repr

/-- AppError from utils/errors.ts; details keeps the keyword payload
that the dangerous-keyword rule attaches. -/
structure AppError where
  message : Str
  code : ErrorCode
  details : Option Str
  deriving DecidableEq, Repr

/-- The prefix rule of validateSql: normalizedSql is the trimmed and
upper-cased text, and must start with SELECT or WITH. -/
def sqlPrefixAllowed (sql : Str) : Bool :=
  (str "SELECT").isPrefixOf (upperStr (trimList sql)) ||
  (str "WITH").isPrefixOf (upperStr (trimList sql))

/-- validateSql from validators/sql.ts: prefix rule, then the
dangerous-keyword loop (first hit wins), then the injection patterns. -/
def validateSql (sql : Str) : Except AppError Unit :=
  if !sqlPrefixAllowed sql then
    .error ⟨str "Only SELECT queries are allowed for security reasons.",
            .DANGEROUS_QUERY, none⟩
  else
    match DANGEROUS_KEYWORDS.find? (fun kw => containsWholeWord kw sql) with
    | some kw =>
        .error ⟨str "Query contains forbidden keyword: " ++ kw ++
                  str ". Only SELECT queries are allowed.",
                .DANGEROUS_QUERY, some kw⟩
    | none =>
        if hasInjectionPattern sql then
          .error ⟨str "Query contains potentially dangerous patterns.",
                  .DANGEROUS_QUERY, none⟩
        else .ok ()

/-- Strip the trailing run of semicolons (regex ;+$ replaced by nothing). -/
def stripTrailingSemicolons (s : Str) : Str :=
  (s.reverse.dropWhile (fun c => c = ';')).reverse

/-- Worker for the global \s+ to single-space replacement; the flag
records whether the scanner is inside a whitespace run already replaced. -/
def collapseGo : Bool → Str → Str
  | _, [] => []
  | prevWs, c :: rest =>
    if jsWhitespace c then
      if prevWs then collapseGo true rest
      else ' ' :: collapseGo true rest
    else c :: collapseGo false rest

/-- Replace every whitespace run with a single space (regex \s+ global). -/
def collapseWs (s : Str) : Str := collapseGo false s

/-- sanitizeSql from validators/sql.ts: trim, strip trailing semicolons,
collapse whitespace runs, in that order. -/
def sanitizeSql (sql : Str) : Str :=
  collapseWs (stripTrailingSemicolons (trimList sql))

/- ------------------------------------------------------------------
   src/lib/utils/constants.ts
   ------------------------------------------------------------------ -/

/-- QUERY_MAX_ROWS from utils/constants.ts. -/
def QUERY_MAX_ROWS : Nat := 1000

/-- SUPPORTED_DATABASE_TYPES from utils/constants.ts. -/
def SUPPORTED_DATABASE_TYPES : List Str :=
  [str "postgresql", str "mysql", str "sqlite", str "sqlserver", str "mongodb"]

/-- Decimal rendering of a number into the string model. -/
def natStr (n : Nat) : Str := (Nat.repr n).data

/-- Array.prototype.join with a separator. -/
def joinStr (sep : Str) (l : List Str) : Str := (l.intersperse sep).flatten

/- ------------------------------------------------------------------
   src/lib/db/index.ts - adapter registry / factory
   ------------------------------------------------------------------ -/

/-- ConnectionConfig_t: the connection parameters held in the session. -/
structure ConnectionConfig where
  type : Str
  host : Str
  port : Nat
  database : Str
  username : Str
  password : Str
  ssl : Bool
  deriving DecidableEq, Repr

/-- A constructed adapter object, abstracted to its observable type tag
(each adapter class fixes its readonly type field at construction). -/
structure DatabaseAdapter where
  type : Str
  deriving DecidableEq, Repr

/-- The adapter registry of db/index.ts: type tag to constructor, in
registration order. -/
def adapterRegistry : List (Str × (Unit → DatabaseAdapter)) :=
  [(str "postgresql", fun _ => ⟨str "postgresql"⟩),
   (str "mysql", fun _ => ⟨str "mysql"⟩),
   (str "sqlite", fun _ => ⟨str "sqlite"⟩),
   (str "sqlserver", fun _ => ⟨str "sqlserver"⟩),
   (str "mongodb", fun _ => ⟨str "mongodb"⟩)]

/-- createDatabaseAdapter from db/index.ts: look the type tag up in the
registry, construct on a hit, fail with CONNECTION_FAILED otherwise. -/
def createDatabaseAdapter (config : ConnectionConfig) : Except AppError DatabaseAdapter :=
  match adapterRegistry.lookup config.type with
  | some factory => .ok (factory ())
  | none =>
      .error ⟨str "Unsupported database type: " ++ config.type ++
                str ". Supported types: " ++ joinStr (str ", ") SUPPORTED_DATABASE_TYPES,
              .CONNECTION_FAILED, none⟩

/- ------------------------------------------------------------------
   executeQuery of the relational adapters - the row-cap rewrite
   (postgres.ts, mysql.ts, sqlite.ts, sqlserver.ts)
   ------------------------------------------------------------------ -/

/-- The finalSql computation of PostgresAdapter.executeQuery: trim, and
if the text starts with select and has no occurrence of the substring
limit (both case-insensitive), append the LIMIT cap. -/
def postgresRewrite (sql : Str) : Str :=
  let finalSql := trimList sql
  let isSelect := (str "select").isPrefixOf (lowerStr finalSql)
  if isSelect && !containsSub (str "limit") (lowerStr finalSql) then
    finalSql ++ str " LIMIT " ++ natStr QUERY_MAX_ROWS
  else finalSql

/-- The finalSql computation of MySQLAdapter.executeQuery (same shape as
the PostgreSQL one). -/
def mysqlRewrite (sql : Str) : Str :=
  let finalSql := trimList sql
  let isSelect := (str "select").isPrefixOf (lowerStr finalSql)
  if isSelect && !containsSub (str "limit") (lowerStr finalSql) then
    finalSql ++ str " LIMIT " ++ natStr QUERY_MAX_ROWS
  else finalSql

/-- The finalSql computation of SQLiteAdapter.executeQuery (same shape as
the PostgreSQL one). -/
def sqliteRewrite (sql : Str) : Str :=
  let finalSql := trimList sql
  let isSelect := (str "select").isPrefixOf (lowerStr finalSql)
  if isSelect && !containsSub (str "limit") (lowerStr finalSql) then
    finalSql ++ str " LIMIT " ++ natStr QUERY_MAX_ROWS
  else finalSql

/-- String.prototype.replace with the anchored case-insensitive regex
matching a leading select: replace that prefix by repl, else no change. -/
def replaceLeadingSelect (s repl : Str) : Str :=
  if (str "select").isPrefixOf (lowerStr s) then repl ++ s.drop 6 else s

/-- The finalSql computation of SQLServerAdapter.executeQuery: trim, and
if the text starts with select and has no occurrence of the substring
top followed by a space (case-insensitive), splice SELECT TOP cap in
place of the leading select keyword. -/
def sqlserverRewrite (sql : Str) : Str :=
  let finalSql := trimList sql
  let isSelect := (str "select").isPrefixOf (lowerStr finalSql)
  if isSelect && !containsSub (str "top ") (lowerStr finalSql) then
    replaceLeadingSelect finalSql (str "SELECT TOP " ++ natStr QUERY_MAX_ROWS)
  else finalSql

/-- A result row, as a record of column name and rendered value. -/
abbrev Row := List (Str × Str)

/-- Modelled from the spec: the external relational database driver
(pg, mysql2, better-sqlite3 - not part of src/).  The backing table is
its list of result rows; a query carrying the adapter-appended LIMIT
cap clause returns at most that many rows, any other query returns
every row of the table. -/
def limitDriverRun (table : List Row) (q : Str) : List Row :=
  if (str " LIMIT " ++ natStr QUERY_MAX_ROWS).isSuffixOf q then table.take QUERY_MAX_ROWS
  else table

/-- Modelled from the spec: the external SQL Server driver (mssql - not
part of src/).  A query carrying the adapter-spliced SELECT TOP cap
returns at most that many rows, any other query returns every row. -/
def topDriverRun (table : List Row) (q : Str) : List Row :=
  if (str "SELECT TOP " ++ natStr QUERY_MAX_ROWS).isPrefixOf q then table.take QUERY_MAX_ROWS
  else table

/-- The parts of QueryResult_t the row-cap claims observe: the rows and
the rowCount the adapter computes from them. -/
structure QueryResultM where
  rows : List Row
  rowCount : Nat
  deriving DecidableEq, Repr

/-- MySQLAdapter.executeQuery over the modelled driver: rewrite, run,
and report rows.length as rowCount. -/
def mysqlExecuteQuery (table : List Row) (sql : Str) : QueryResultM :=
  let finalSql := mysqlRewrite sql
  let rows := limitDriverRun table finalSql
  { rows := rows, rowCount := rows.length }

/-- PostgresAdapter.executeQuery over the modelled driver. -/
def postgresExecuteQuery (table : List Row) (sql : Str) : QueryResultM :=
  let finalSql := postgresRewrite sql
  let rows := limitDriverRun table finalSql
  { rows := rows, rowCount := rows.length }

/-- SQLiteAdapter.executeQuery over the modelled driver. -/
def sqliteExecuteQuery (table : List Row) (sql : Str) : QueryResultM :=
  let finalSql := sqliteRewrite sql
  let rows := limitDriverRun table finalSql
  { rows := rows, rowCount := rows.length }

/-- SQLServerAdapter.executeQuery over the modelled driver. -/
def sqlserverExecuteQuery (table : List Row) (sql : Str) : QueryResultM :=
  let finalSql := sqlserverRewrite sql
  let rows := topDriverRun table finalSql
  { rows := rows, rowCount := rows.length }

/- ------------------------------------------------------------------
   Schema data model (types/db) and getSchema of mysql.ts / mongodb.ts
   ------------------------------------------------------------------ -/

/-- Column_t. -/
structure Column where
  name : Str
  dataType : Str
  nullable : Bool
  defaultValue : Option Str
  isPrimaryKey : Bool
  deriving DecidableEq, Repr

/-- Table_t; schema is the optional namespace qualifier only the
PostgreSQL adapter fills in. -/
structure Table where
  name : Str
  schema : Option Str
  columns : List Column
  rowCount : Option Nat
  deriving DecidableEq, Repr

/-- Schema_t. -/
structure Schema where
  tables : List Table
  deriving DecidableEq, Repr

/-- One row of the information_schema.TABLES query of MySQLAdapter. -/
structure MySqlTableRow where
  table_name : Str
  row_count : Option Nat
  deriving DecidableEq, Repr

/-- One row of the information_schema.COLUMNS query of MySQLAdapter. -/
structure MySqlColumnRow where
  table_name : Str
  column_name : Str
  data_type : Str
  is_nullable : Str
  column_default : Option Str
  column_key : Str
  deriving DecidableEq, Repr

/-- The metadata the MySQL catalog answers with on one schema fetch. -/
structure MySqlCatalog where
  tablesResult : List MySqlTableRow
  columnsResult : List MySqlColumnRow
  deriving DecidableEq, Repr

/-- The Schema value MySQLAdapter.getSchema builds from the two catalog
result sets: per table, the columns filtered by table name in order,
and a row count kept only when the reported value is truthy. -/
def mysqlBuildSchema (cat : MySqlCatalog) : Schema :=
  { tables := cat.tablesResult.map fun row =>
      { name := row.table_name
        schema := none
        columns := (cat.columnsResult.filter (fun col => col.table_name == row.table_name)).map
          fun col =>
            { name := col.column_name
              dataType := col.data_type
              nullable := col.is_nullable == str "YES"
              defaultValue := col.column_default
              isPrimaryKey := col.column_key == str "PRI" }
        rowCount := match row.row_count with
          | some n => if n = 0 then none else some n
          | none => none } }

/-- The adapter-instance state the schema cache lives in: whether the
connection handle is set, the cached schema, and how many times the
backend metadata has been fetched (one round trip per fetch). -/
structure AdapterState where
  connected : Bool
  schema : Option Schema
  metadataFetches : Nat
  deriving DecidableEq, Repr

/-- MySQLAdapter.getSchema: return the cache when present; otherwise
require a connection, fetch the catalog once, build, cache, return. -/
def mysqlGetSchema (cat : MySqlCatalog) (st : AdapterState) :
    Except AppError Schema × AdapterState :=
  match st.schema with
  | some s => (.ok s, st)
  | none =>
      if !st.connected then
        (.error ⟨str "Not connected to database", .NO_CONNECTION, none⟩, st)
      else
        let s := mysqlBuildSchema cat
        (.ok s, { st with schema := some s, metadataFetches := st.metadataFetches + 1 })

/-- The top-level value kinds MongoDBAdapter.getMongoType distinguishes. -/
inductive MongoValue where
  | nullv
  | arrayv
  | datev
  | objectIdv
  | objectv
  | stringv
  | numberv
  | booleanv
  deriving DecidableEq, Repr

/-- getMongoType from mongodb.ts. -/
def getMongoType : MongoValue → Str
  | .nullv => str "null"
  | .arrayv => str "array"
  | .datev => str "date"
  | .objectIdv => str "ObjectId"
  | .objectv => str "object"
  | .stringv => str "string"
  | .numberv => str "number"
  | .booleanv => str "boolean"

/-- A BSON document, as its ordered top-level key/value pairs. -/
abbrev MongoDocument := List (Str × MongoValue)

/-- inferColumnsFromDocument from mongodb.ts: one column per top-level
key; nullable when the sampled value is null, primary key when the key
is the identifier field. -/
def inferColumnsFromDocument (doc : MongoDocument) : List Column :=
  doc.map fun kv =>
    { name := kv.1
      dataType := getMongoType kv.2
      nullable := kv.2 == MongoValue.nullv
      defaultValue := none
      isPrimaryKey := kv.1 == str "_id" }

/-- One backend collection: its name and its documents in natural order
(findOne samples the first). -/
structure MongoCollection where
  name : Str
  docs : List MongoDocument
  deriving DecidableEq, Repr

/-- The Table value MongoDBAdapter.getSchema builds for one collection:
columns inferred from the first document, or the lone identifier column
when the collection is empty; rowCount is the document count. -/
def mongoBuildTable (col : MongoCollection) : Table :=
  { name := col.name
    schema := none
    columns := match col.docs.head? with
      | some d => inferColumnsFromDocument d
      | none => [{ name := str "_id", dataType := str "ObjectId", nullable := false,
                   defaultValue := none, isPrimaryKey := true }]
    rowCount := some col.docs.length }

/-- The Schema value MongoDBAdapter.getSchema builds from the listed
collections. -/
def mongoBuildSchema (collections : List MongoCollection) : Schema :=
  { tables := collections.map mongoBuildTable }

/-- MongoDBAdapter.getSchema, with the same cache discipline as the
relational adapters. -/
def mongoGetSchema (collections : List MongoCollection) (st : AdapterState) :
    Except AppError Schema × AdapterState :=
  match st.schema with
  | some s => (.ok s, st)
  | none =>
      if !st.connected then
        (.error ⟨str "Not connected to database", .NO_CONNECTION, none⟩, st)
      else
        let s := mongoBuildSchema collections
        (.ok s, { st with schema := some s, metadataFetches := st.metadataFetches + 1 })

/- ------------------------------------------------------------------
   getSchemaContext renderings
   ------------------------------------------------------------------ -/

/-- One column line of the relational getSchemaContext renderings:
two-space indent, name, space, type, then the optional markers. -/
def relationalColumnLine (col : Column) : Str :=
  let colStr := str "  " ++ col.name ++ str " " ++ col.dataType
  let colStr := if col.isPrimaryKey then colStr ++ str " PRIMARY KEY" else colStr
  if !col.nullable then colStr ++ str " NOT NULL" else colStr

/-- MySQLAdapter.getSchemaContext as a function of the fetched Schema:
a Table header and the joined column lines per table, tables joined by
a blank line. -/
def mysqlSchemaContext (schema : Schema) : Str :=
  joinStr (str "\n\n") (schema.tables.map fun table =>
    str "Table: " ++ table.name ++ str "\n" ++
      joinStr (str "\n") (table.columns.map relationalColumnLine))

/-- One column line of MongoDBAdapter.getSchemaContext: indent, name,
colon, type, and a parenthesised primary marker. -/
def mongoColumnLine (col : Column) : Str :=
  str "  " ++ col.name ++ str ": " ++ col.dataType ++
    (if col.isPrimaryKey then str " (primary)" else [])

/-- MongoDBAdapter.getSchemaContext as a function of the fetched Schema. -/
def mongoSchemaContext (schema : Schema) : Str :=
  joinStr (str "\n\n") (schema.tables.map fun table =>
    str "Collection: " ++ table.name ++ str " (" ++ natStr (table.rowCount.getD 0) ++
      str " documents)\n" ++
      joinStr (str "\n") (table.columns.map mongoColumnLine))

/- ------------------------------------------------------------------
   api/execute/route.ts - the orchestration flow
   ------------------------------------------------------------------ -/

/-- The per-request adapter resource state the route manipulates. -/
structure RouteState where
  connected : Bool
  disconnectCalls : Nat
  deriving DecidableEq, Repr

/-- A route computation: state in, thrown-or-returned value and state out. -/
def RouteM (α : Type) := RouteState → Except AppError α × RouteState

/-- Return a value without touching the state. -/
def routePure {α : Type} (a : α) : RouteM α := fun s => (.ok a, s)

/-- Sequencing with exception propagation (await / statement order). -/
def routeBind {α β : Type} (x : RouteM α) (f : α → RouteM β) : RouteM β := fun s =>
  match x s with
  | (.ok a, s1) => f a s1
  | (.error e, s1) => (.error e, s1)

/-- Run a plain Except computation inside the route. -/
def routeOfExcept {α : Type} (x : Except AppError α) : RouteM α := fun s => (x, s)

/-- JavaScript try/finally: the finalizer runs on every exit path of the
body, and an exception thrown by the finalizer wins. -/
def tryFinallyM {α : Type} (body : RouteM α) (fin : RouteM Unit) : RouteM α := fun s =>
  let (r, s1) := body s
  match fin s1 with
  | (.ok _, s2) => (r, s2)
  | (.error e, s2) => (.error e, s2)

/-- JavaScript try/catch. -/
def tryCatchM {α : Type} (body : RouteM α) (handler : AppError → RouteM α) : RouteM α :=
  fun s =>
    match body s with
    | (.ok a, s1) => (.ok a, s1)
    | (.error e, s1) => handler e s1

/-- adapter.connect, abstracted over the backend outcome: on success the
adapter holds a live connection, on failure it throws. -/
def connectOp (outcome : Except AppError Unit) : RouteM Unit := fun s =>
  (outcome, match outcome with
            | .ok _ => { s with connected := true }
            | .error _ => s)

/-- adapter.disconnect: always succeeds, closes the connection. -/
def disconnectOp : RouteM Unit := fun s =>
  (.ok (), { connected := false, disconnectCalls := s.disconnectCalls + 1 })

/-- adapter.executeQuery, abstracted over the backend outcome. -/
def executeOp (outcome : Except AppError QueryResultM) : RouteM QueryResultM :=
  fun s => (outcome, s)

/-- The JSON payload the route answers with. -/
inductive ApiResponse where
  | ok (result : QueryResultM)
  | fail (code : ErrorCode) (message : Str)
  deriving DecidableEq, Repr

/-- POST of api/execute/route.ts from the point a session config is at
hand: sanitize, validate, connect, then execute inside try/finally with
disconnect as the finalizer, all wrapped in the catch that renders any
thrown AppError as a failure payload. -/
def executeRoute (rawSql : Str) (connectOutcome : Except AppError Unit)
    (execOutcome : Except AppError QueryResultM) : RouteM ApiResponse :=
  tryCatchM
    (routeBind (routeOfExcept (validateSql (sanitizeSql rawSql))) fun _ =>
      routeBind (connectOp connectOutcome) fun _ =>
        tryFinallyM
          (routeBind (executeOp execOutcome) fun r => routePure (ApiResponse.ok r))
          disconnectOp)
    (fun e => routePure (ApiResponse.fail e.code e.message))

/- ------------------------------------------------------------------
   General helper lemmas
   ------------------------------------------------------------------ -/
theorem dropWhile_eq_self_of_head {p : Char → Bool} {l : Str}
    (h : ∀ c, l.head? = some c → p c = false) : l.dropWhile p = l := by
  cases l with
  | nil => rfl
  | cons c t => simp [List.dropWhile, h c rfl]

theorem head?_dropWhile {p : Char → Bool} {l : Str} {c : Char}
    (h : (l.dropWhile p).head? = some c) : p c = false := by
  induction l with
  | nil => simp [List.dropWhile] at h
  | cons a t ih =>
      by_cases hp : p a
      · exact ih (by simpa [List.dropWhile, hp] using h)
      · simp [List.dropWhile, hp] at h
        subst h
        simpa using hp

theorem getLast?_cons_of_getLast? {t : Str} {a c : Char}
    (h : t.getLast? = some c) : (a :: t).getLast? = some c := by
  cases t with
  | nil => simp at h
  | cons b t' => simpa [List.getLast?_cons_cons] using h

theorem mem_of_getLast? {l : Str} {c : Char} (h : l.getLast? = some c) : c ∈ l := by
  induction l with
  | nil => simp at h
  | cons a t ih =>
      cases t with
      | nil => simp at h; simp [h]
      | cons b t' =>
          have := ih (by simpa [List.getLast?_cons_cons] using h)
          exact List.mem_cons_of_mem _ this

theorem getLast?_dropWhile {p : Char → Bool} {l : Str} {c : Char}
    (h : (l.dropWhile p).getLast? = some c) : l.getLast? = some c := by
  induction l with
  | nil => simp [List.dropWhile] at h
  | cons a t ih =>
      by_cases hp : p a
      · exact getLast?_cons_of_getLast? (ih (by simpa [List.dropWhile, hp] using h))
      · simpa [List.dropWhile, hp] using h

/- ------------------------------------------------------------------
   Lemmas about trimList, stripTrailingSemicolons, collapseGo
   ------------------------------------------------------------------ -/

theorem trimList_head {s : Str} {c : Char}
    (h : (trimList s).head? = some c) : jsWhitespace c = false :=
  head?_dropWhile h

theorem trimList_getLast {s : Str} {c : Char}
    (h : (trimList s).getLast? = some c) : jsWhitespace c = false := by
  unfold trimList at h
  have h1 : ((s.reverse.dropWhile jsWhitespace).reverse).getLast? = some c :=
    getLast?_dropWhile h
  rw [List.getLast?_reverse] at h1
  exact head?_dropWhile h1

theorem stripTrailingSemicolons_getLast {s : Str} {c : Char}
    (h : (stripTrailingSemicolons s).getLast? = some c) : c ≠ ';' := by
  unfold stripTrailingSemicolons at h
  rw [List.getLast?_reverse] at h
  have := head?_dropWhile h
  simpa using this

theorem stripTrailingSemicolons_head {s : Str} {c : Char}
    (h : (stripTrailingSemicolons s).head? = some c) : s.head? = some c := by
  unfold stripTrailingSemicolons at h
  rw [List.head?_reverse] at h
  have h1 : s.reverse.getLast? = some c := getLast?_dropWhile h
  rwa [List.getLast?_reverse] at h1

theorem collapseGo_idem (m : Str) : ∀ b, collapseGo b (collapseGo b m) = collapseGo b m := by
  induction m with
  | nil => intro b; rfl
  | cons c rest ih =>
      intro b
      have hsp : jsWhitespace ' ' = true := by decide
      by_cases hw : jsWhitespace c
      · cases b with
        | true => simp [collapseGo, hw]; exact ih true
        | false =>
            simp [collapseGo, hw, hsp]
            exact ih true
      · simp [collapseGo, hw]
        exact ih false

theorem mem_collapseGo_ws (m : Str) :
    ∀ b c, c ∈ collapseGo b m → jsWhitespace c = true → c = ' ' := by
  induction m with
  | nil => intro b c h; simp [collapseGo] at h
  | cons a rest ih =>
      intro b c h hc
      by_cases hw : jsWhitespace a
      · cases b with
        | true =>
            simp [collapseGo, hw] at h
            exact ih true c h hc
        | false =>
            simp [collapseGo, hw] at h
            rcases h with h | h
            · exact h
            · exact ih true c h hc
      · simp [collapseGo, hw] at h
        rcases h with h | h
        · subst h; rw [hc] at hw; exact absurd rfl hw
        · exact ih false c h hc

theorem head?_collapseGo_false {m : Str} {c : Char}
    (h : m.head? = some c) (hc : jsWhitespace c = false) :
    (collapseGo false m).head? = some c := by
  cases m with
  | nil => simp at h
  | cons a rest =>
      simp at h
      subst h
      simp [collapseGo, hc]

theorem collapseGo_false_ne_nil {m : Str} (h : m ≠ []) : collapseGo false m ≠ [] := by
  cases m with
  | nil => exact absurd rfl h
  | cons a rest =>
      by_cases hw : jsWhitespace a <;> simp [collapseGo, hw]

theorem getLast?_collapseGo (m : Str) :
    ∀ b c, (collapseGo b m).getLast? = some c → c = ' ' ∨ m.getLast? = some c := by
  induction m with
  | nil => intro b c h; simp [collapseGo] at h
  | cons a rest ih =>
      intro b c h
      by_cases hw : jsWhitespace a
      · cases b with
        | true =>
            simp only [collapseGo, hw, if_pos] at h
            rcases ih true c h with h1 | h1
            · exact Or.inl h1
            · exact Or.inr (getLast?_cons_of_getLast? h1)
        | false =>
            simp only [collapseGo, hw, if_pos, if_neg, Bool.false_eq_true,
              not_false_iff] at h
            cases hx : collapseGo true rest with
            | nil => rw [hx] at h; simp at h; exact Or.inl h.symm
            | cons y ys =>
                rw [hx] at h
                rw [List.getLast?_cons_cons] at h
                rw [← hx] at h
                rcases ih true c h with h1 | h1
                · exact Or.inl h1
                · exact Or.inr (getLast?_cons_of_getLast? h1)
      · simp only [collapseGo, hw, if_neg, Bool.false_eq_true, not_false_iff] at h
        cases hr : rest with
        | nil =>
            subst hr
            simp [collapseGo] at h
            exact Or.inr (by simp [h])
        | cons y ys =>
            have hne : collapseGo false rest ≠ [] := by
              rw [hr]; exact collapseGo_false_ne_nil (by simp)
            cases hx : collapseGo false rest with
            | nil => exact absurd hx hne
            | cons z zs =>
                rw [hx] at h
                rw [List.getLast?_cons_cons] at h
                rw [← hx] at h
                rcases ih false c h with h1 | h1
                · exact Or.inl h1
                · subst hr
                  exact Or.inr (getLast?_cons_of_getLast? h1)

theorem sanitizeSql_head {s : Str} {c : Char}
    (h : (sanitizeSql s).head? = some c) : jsWhitespace c = false := by
  unfold sanitizeSql collapseWs at h
  cases hm : (stripTrailingSemicolons (trimList s)).head? with
  | none =>
      have : stripTrailingSemicolons (trimList s) = [] := by
        cases hx : stripTrailingSemicolons (trimList s) with
        | nil => rfl
        | cons a t => rw [hx] at hm; simp at hm
      rw [this] at h
      simp [collapseGo] at h
  | some c0 =>
      have hc0 : jsWhitespace c0 = false :=
        trimList_head (stripTrailingSemicolons_head hm)
      have := head?_collapseGo_false hm hc0
      rw [this] at h
      injection h with h
      subst h
      exact hc0

theorem sanitizeSql_getLast_ne_semicolon (s : Str) :
    (sanitizeSql s).getLast? ≠ some ';' := by
  intro h
  unfold sanitizeSql collapseWs at h
  rcases getLast?_collapseGo _ false ';' h with h1 | h1
  · exact absurd h1 (by decide)
  · exact stripTrailingSemicolons_getLast h1 rfl

theorem sanitizeSql_idem_of_no_trailing_space {s : Str}
    (h : (sanitizeSql s).getLast? ≠ some ' ') :
    sanitizeSql (sanitizeSql s) = sanitizeSql s := by
  set t := sanitizeSql s with ht
  have hhead : ∀ c, t.head? = some c → jsWhitespace c = false := fun c hc =>
    sanitizeSql_head (ht ▸ hc)
  have hlast : ∀ c, t.getLast? = some c → jsWhitespace c = false := by
    intro c hc
    by_cases hw : jsWhitespace c
    · have hmem : c ∈ t := mem_of_getLast? hc
      have : c = ' ' := by
        rw [ht] at hmem
        unfold sanitizeSql collapseWs at hmem
        exact mem_collapseGo_ws _ false c hmem hw
      subst this
      exact absurd hc h
    · simpa using hw
  have hlastsemi : t.getLast? ≠ some ';' := ht ▸ sanitizeSql_getLast_ne_semicolon s
  have htrim : trimList t = t := by
    unfold trimList
    have h1 : t.reverse.dropWhile jsWhitespace = t.reverse := by
      apply dropWhile_eq_self_of_head
      intro c hc
      rw [List.head?_reverse] at hc
      exact hlast c hc
    rw [h1, List.reverse_reverse]
    exact dropWhile_eq_self_of_head hhead
  have hstrip : stripTrailingSemicolons t = t := by
    unfold stripTrailingSemicolons
    have h1 : t.reverse.dropWhile (fun c => c = ';') = t.reverse := by
      apply dropWhile_eq_self_of_head
      intro c hc
      rw [List.head?_reverse] at hc
      by_cases he : c = ';'
      · subst he; exact absurd hc hlastsemi
      · simpa using he
    rw [h1, List.reverse_reverse]
  show sanitizeSql t = t
  unfold sanitizeSql
  rw [htrim, hstrip]
  show collapseWs t = t
  rw [ht]
  unfold sanitizeSql collapseWs
  exact collapseGo_idem _ false

/- ------------------------------------------------------------------
   Bridges between the Bool string tests and propositional facts
   ------------------------------------------------------------------ -/

theorem isPrefixOf_true_iff : ∀ (p l : Str), p.isPrefixOf l = true ↔ ∃ r, l = p ++ r
  | [], l => by simp [List.isPrefixOf]
  | a :: as, [] => by simp [List.isPrefixOf]
  | a :: as, b :: bs => by
      simp only [List.isPrefixOf, Bool.and_eq_true, beq_iff_eq]
      rw [isPrefixOf_true_iff as bs]
      constructor
      · rintro ⟨rfl, r, rfl⟩
        exact ⟨r, rfl⟩
      · rintro ⟨r, hr⟩
        injection hr with h1 h2
        exact ⟨h1.symm, r, h2⟩

theorem isPrefixOf_append_self (p q : Str) : p.isPrefixOf (p ++ q) = true :=
  (isPrefixOf_true_iff p (p ++ q)).mpr ⟨q, rfl⟩

theorem isSuffixOf_append_self (a b : Str) : b.isSuffixOf (a ++ b) = true := by
  simp only [List.isSuffixOf, List.reverse_append]
  exact isPrefixOf_append_self b.reverse a.reverse

theorem containsSub_true_iff (p s : Str) :
    containsSub p s = true ↔ ∃ a b, s = a ++ (p ++ b) := by
  unfold containsSub
  rw [List.any_eq_true]
  constructor
  · rintro ⟨t, ht, hp⟩
    rw [List.mem_tails] at ht
    obtain ⟨a, ha⟩ := ht
    obtain ⟨b, hb⟩ := (isPrefixOf_true_iff p t).mp hp
    exact ⟨a, b, by rw [← ha, hb]⟩
  · rintro ⟨a, b, rfl⟩
    refine ⟨p ++ b, ?_, (isPrefixOf_true_iff p (p ++ b)).mpr ⟨b, rfl⟩⟩
    rw [List.mem_tails]
    exact ⟨a, rfl⟩

theorem containsSub_append_right {p b : Str} (h : containsSub p b = true) (a : Str) :
    containsSub p (a ++ b) = true := by
  rw [containsSub_true_iff] at h ⊢
  obtain ⟨x, y, rfl⟩ := h
  exact ⟨a ++ x, y, by simp [List.append_assoc]⟩

theorem joinStr_cons {sep h : Str} {ls : List Str} (hne : ls ≠ []) :
    joinStr sep (h :: ls) = h ++ sep ++ joinStr sep ls := by
  cases ls with
  | nil => exact absurd rfl hne
  | cons l ls' =>
      simp [joinStr, List.intersperse]

/- ------------------------------------------------------------------
   Claim theorems
   ------------------------------------------------------------------ -/

/-- C1: a SQL string whose trimmed, case-folded text does not begin with
SELECT or WITH makes validateSql fail with a DangerousQuery error, and a
string that does begin so and fires no dangerous-keyword and no
injection-pattern rule passes validateSql. -/
theorem validateSql_select_with_gate (sql : Str) :
    (sqlPrefixAllowed sql = false →
      ∃ e, validateSql sql = .error e ∧ e.code = ErrorCode.DANGEROUS_QUERY) ∧
    (sqlPrefixAllowed sql = true →
      (∀ kw ∈ DANGEROUS_KEYWORDS, containsWholeWord kw sql = false) →
      hasInjectionPattern sql = false →
      validateSql sql = .ok ()) := by
  constructor
  · intro h
    refine ⟨⟨str "Only SELECT queries are allowed for security reasons.",
             ErrorCode.DANGEROUS_QUERY, none⟩, ?_, rfl⟩
    simp [validateSql, h]
  · intro h hkw hinj
    have hfind : DANGEROUS_KEYWORDS.find? (fun kw => containsWholeWord kw sql) = none := by
      apply List.find?_eq_none.mpr
      intro x hx
      simp [hkw x hx]
    simp [validateSql, h, hfind, hinj]

/-- Witness for C1 at concrete inputs on both sides of the gate. -/
theorem validateSql_select_with_gate_witness :
    (∃ e, validateSql (str "delete from t") = .error e ∧
      e.code = ErrorCode.DANGEROUS_QUERY) ∧
    validateSql (str "SELECT * FROM t WHERE a = 1") = .ok () :=
  ⟨(validateSql_select_with_gate (str "delete from t")).1 (by decide),
   (validateSql_select_with_gate (str "SELECT * FROM t WHERE a = 1")).2
     (by decide) (by decide) (by decide)⟩

/-- C2 counterexample: validateSql on DROP TABLE x does fail, but with
the prefix-rule error, which carries no keyword detail and whose message
does not mention DROP - contrary to the claim that the error names the
offending keyword on this very input. -/
theorem validateSql_drop_table_error_is_anonymous :
    validateSql (str "DROP TABLE x") =
      .error ⟨str "Only SELECT queries are allowed for security reasons.",
              ErrorCode.DANGEROUS_QUERY, none⟩ ∧
    containsSub (str "DROP")
      (str "Only SELECT queries are allowed for security reasons.") = false := by
  decide

/-- C2 amended: any whole-word dangerous keyword makes validateSql fail
with DangerousQuery; when the prefix rule passes, the failure is the
keyword-rule error naming a matching keyword; and when no keyword
matches as a whole word, no error carries a keyword detail. -/
theorem validateSql_dangerous_keywords (sql : Str) :
    ((∃ kw ∈ DANGEROUS_KEYWORDS, containsWholeWord kw sql = true) →
      ∃ e, validateSql sql = .error e ∧ e.code = ErrorCode.DANGEROUS_QUERY) ∧
    (sqlPrefixAllowed sql = true →
      (∃ kw ∈ DANGEROUS_KEYWORDS, containsWholeWord kw sql = true) →
      ∃ kw, kw ∈ DANGEROUS_KEYWORDS ∧ containsWholeWord kw sql = true ∧
        validateSql sql =
          .error ⟨str "Query contains forbidden keyword: " ++ kw ++
                    str ". Only SELECT queries are allowed.",
                  ErrorCode.DANGEROUS_QUERY, some kw⟩) ∧
    ((∀ kw ∈ DANGEROUS_KEYWORDS, containsWholeWord kw sql = false) →
      ∀ e, validateSql sql = .error e → e.details = none) := by
  refine ⟨?_, ?_, ?_⟩
  · intro hex
    by_cases hpre : sqlPrefixAllowed sql
    · obtain ⟨kw, hmem, hw⟩ := hex
      have hsome : (DANGEROUS_KEYWORDS.find? (fun kw => containsWholeWord kw sql)).isSome := by
        rw [List.find?_isSome]
        exact ⟨kw, hmem, hw⟩
      obtain ⟨kw', hk'⟩ := Option.isSome_iff_exists.mp hsome
      refine ⟨⟨str "Query contains forbidden keyword: " ++ kw' ++
                 str ". Only SELECT queries are allowed.",
               ErrorCode.DANGEROUS_QUERY, some kw'⟩, ?_, rfl⟩
      simp [validateSql, hpre, hk']
    · refine ⟨⟨str "Only SELECT queries are allowed for security reasons.",
               ErrorCode.DANGEROUS_QUERY, none⟩, ?_, rfl⟩
      simp [validateSql, hpre]
  · intro hpre hex
    obtain ⟨kw, hmem, hw⟩ := hex
    have hsome : (DANGEROUS_KEYWORDS.find? (fun kw => containsWholeWord kw sql)).isSome := by
      rw [List.find?_isSome]
      exact ⟨kw, hmem, hw⟩
    obtain ⟨kw', hk'⟩ := Option.isSome_iff_exists.mp hsome
    refine ⟨kw', List.mem_of_find?_eq_some hk', by simpa using List.find?_some hk', ?_⟩
    simp [validateSql, hpre, hk']
  · intro hkw e he
    have hfind : DANGEROUS_KEYWORDS.find? (fun kw => containsWholeWord kw sql) = none := by
      apply List.find?_eq_none.mpr
      intro x hx
      simp [hkw x hx]
    by_cases hpre : sqlPrefixAllowed sql
    · by_cases hinj : hasInjectionPattern sql
      · simp [validateSql, hpre, hfind, hinj] at he
        rw [← he]
      · simp [validateSql, hpre, hfind, hinj] at he
    · simp [validateSql, hpre] at he
      rw [← he]

/-- Witness for C2 amended: the chained DELETE example is rejected with
the error naming DELETE, and a keyword inside an identifier never puts a
keyword detail on an error. -/
theorem validateSql_dangerous_keywords_witness :
    (∃ kw, kw ∈ DANGEROUS_KEYWORDS ∧
      containsWholeWord kw (str "select * from t; DELETE from t") = true ∧
      validateSql (str "select * from t; DELETE from t") =
        .error ⟨str "Query contains forbidden keyword: " ++ kw ++
                  str ". Only SELECT queries are allowed.",
                ErrorCode.DANGEROUS_QUERY, some kw⟩) ∧
    (∀ e, validateSql (str "SELECT dropdown_id FROM t") = .error e → e.details = none) :=
  ⟨(validateSql_dangerous_keywords (str "select * from t; DELETE from t")).2.1
      (by decide) ⟨str "DELETE", by decide, by decide⟩,
   (validateSql_dangerous_keywords (str "SELECT dropdown_id FROM t")).2.2 (by decide)⟩

/-- C5 counterexample: sanitizeSql is not idempotent - stripping the
trailing semicolon of a ; exposes a space that only a second pass
removes. -/
theorem sanitizeSql_not_idempotent :
    ¬ sanitizeSql (sanitizeSql (str "a ;")) = sanitizeSql (str "a ;") := by
  decide

/-- C5 amended: sanitizeSql trims first (its output never starts with
whitespace), strips trailing semicolons (its output never ends with
one), leaves whitespace runs collapsed (its output is a fixed point of
the collapse pass), and is idempotent on every input whose sanitized
form does not end with a space - the sole obstruction, as stripping a
trailing semicolon can expose one trailing space. -/
theorem sanitizeSql_shape (s : Str) :
    (∀ c, (sanitizeSql s).head? = some c → jsWhitespace c = false) ∧
    (sanitizeSql s).getLast? ≠ some ';' ∧
    collapseWs (sanitizeSql s) = sanitizeSql s ∧
    ((sanitizeSql s).getLast? ≠ some ' ' → sanitizeSql (sanitizeSql s) = sanitizeSql s) :=
  ⟨fun _ h => sanitizeSql_head h,
   sanitizeSql_getLast_ne_semicolon s,
   collapseGo_idem _ false,
   fun h => sanitizeSql_idem_of_no_trailing_space h⟩

/-- Witness for C5 amended at a concrete query. -/
theorem sanitizeSql_shape_witness :
    jsWhitespace 'S' = false ∧
    sanitizeSql (sanitizeSql (str "  SELECT  1;;")) = sanitizeSql (str "  SELECT  1;;") :=
  ⟨(sanitizeSql_shape (str "  SELECT  1;;")).1 'S' (by decide),
   (sanitizeSql_shape (str "  SELECT  1;;")).2.2.2 (by decide)⟩

/-- C8: a config whose type tag is one of the five supported values
yields an adapter carrying exactly that type tag, and any other tag
fails with a CONNECTION_FAILED error whose message contains the
rejected tag and every supported tag. -/
theorem createDatabaseAdapter_registry (config : ConnectionConfig) :
    (config.type ∈ SUPPORTED_DATABASE_TYPES →
      ∃ a, createDatabaseAdapter config = .ok a ∧ a.type = config.type) ∧
    (config.type ∉ SUPPORTED_DATABASE_TYPES →
      ∃ e, createDatabaseAdapter config = .error e ∧
        e.code = ErrorCode.CONNECTION_FAILED ∧
        containsSub config.type e.message = true ∧
        ∀ t ∈ SUPPORTED_DATABASE_TYPES, containsSub t e.message = true) := by
  constructor
  · intro hmem
    simp only [SUPPORTED_DATABASE_TYPES, List.mem_cons, List.mem_singleton,
      List.not_mem_nil, or_false] at hmem
    rcases hmem with h | h | h | h | h <;>
      (refine ⟨⟨config.type⟩, ?_, rfl⟩
       simp only [createDatabaseAdapter, adapterRegistry, h, List.lookup]
       decide)
  · intro hmem
    simp only [SUPPORTED_DATABASE_TYPES, List.mem_cons, List.mem_singleton,
      List.not_mem_nil, or_false, not_or] at hmem
    obtain ⟨h1, h2, h3, h4, h5⟩ := hmem
    have e1 : (config.type == str "postgresql") = false := beq_eq_false_iff_ne.mpr h1
    have e2 : (config.type == str "mysql") = false := beq_eq_false_iff_ne.mpr h2
    have e3 : (config.type == str "sqlite") = false := beq_eq_false_iff_ne.mpr h3
    have e4 : (config.type == str "sqlserver") = false := beq_eq_false_iff_ne.mpr h4
    have e5 : (config.type == str "mongodb") = false := beq_eq_false_iff_ne.mpr h5
    have hlook : adapterRegistry.lookup config.type = none := by
      simp [adapterRegistry, List.lookup, e1, e2, e3, e4, e5]
    refine ⟨⟨str "Unsupported database type: " ++ config.type ++
              str ". Supported types: " ++ joinStr (str ", ") SUPPORTED_DATABASE_TYPES,
            ErrorCode.CONNECTION_FAILED, none⟩,
           by simp [createDatabaseAdapter, hlook], rfl, ?_, ?_⟩
    · rw [containsSub_true_iff]
      exact ⟨str "Unsupported database type: ",
             str ". Supported types: " ++ joinStr (str ", ") SUPPORTED_DATABASE_TYPES,
             by simp [List.append_assoc]⟩
    · intro t ht
      have htail : containsSub t
          (str ". Supported types: " ++ joinStr (str ", ") SUPPORTED_DATABASE_TYPES) = true := by
        fin_cases ht <;> decide
      have hmsg : str "Unsupported database type: " ++ config.type ++
            str ". Supported types: " ++ joinStr (str ", ") SUPPORTED_DATABASE_TYPES =
          str "Unsupported database type: " ++ (config.type ++
            (str ". Supported types: " ++ joinStr (str ", ") SUPPORTED_DATABASE_TYPES)) := by
        simp [List.append_assoc]
      rw [hmsg]
      exact containsSub_append_right (containsSub_append_right htail _) _

/-- Witness for C8 at a supported and an unsupported tag. -/
theorem createDatabaseAdapter_registry_witness :
    (∃ a, createDatabaseAdapter
        ⟨str "postgresql", str "h", 5432, str "d", str "u", str "p", false⟩ = .ok a ∧
      a.type = str "postgresql") ∧
    (∃ e, createDatabaseAdapter
        ⟨str "oracle", str "h", 1521, str "d", str "u", str "p", false⟩ = .error e ∧
      e.code = ErrorCode.CONNECTION_FAILED ∧
      containsSub (str "oracle") e.message = true ∧
      ∀ t ∈ SUPPORTED_DATABASE_TYPES, containsSub t e.message = true) :=
  ⟨(createDatabaseAdapter_registry
      ⟨str "postgresql", str "h", 5432, str "d", str "u", str "p", false⟩).1 (by decide),
   (createDatabaseAdapter_registry
      ⟨str "oracle", str "h", 1521, str "d", str "u", str "p", false⟩).2 (by decide)⟩

/-- A sample row of the modelled backing table. -/
def sampleRow : Row := [(str "unlimited", str "1")]

/-- A backing table larger than the row cap. -/
def sampleBigTable : List Row := List.replicate 1500 sampleRow

/-- C3 counterexample: a SELECT naming a column that merely contains
the letters limit specifies no result-size cap, yet the adapters leave
it uncapped, because the guard tests for the substring limit rather
than for a cap clause - so the query reaches the backend uncapped and
more rows than the cap come back. -/
theorem executeQuery_cap_counterexample :
    containsWholeWord (str "LIMIT") (str "SELECT unlimited FROM t") = false ∧
    containsWholeWord (str "TOP") (str "SELECT unlimited FROM t") = false ∧
    mysqlRewrite (str "SELECT unlimited FROM t") = str "SELECT unlimited FROM t" ∧
    ¬ mysqlRewrite (str "SELECT unlimited FROM t") =
        str "SELECT unlimited FROM t" ++ str " LIMIT " ++ natStr QUERY_MAX_ROWS ∧
    (mysqlExecuteQuery sampleBigTable (str "SELECT unlimited FROM t")).rowCount = 1500 := by
  refine ⟨by decide, by decide, by decide, by decide, ?_⟩
  have hrw : mysqlRewrite (str "SELECT unlimited FROM t") =
      str "SELECT unlimited FROM t" := by decide
  have hdrv : (str " LIMIT " ++ natStr QUERY_MAX_ROWS).isSuffixOf
      (str "SELECT unlimited FROM t") = false := by decide
  simp [mysqlExecuteQuery, hrw, limitDriverRun, hdrv, sampleBigTable]

/-- C3 amended: for a trimmed statement starting with select, the cap
clause is appended (spliced, for SQL Server) exactly when the statement
does not contain the substring limit (top and a space, for SQL Server),
case-insensitively; under the cap a table larger than the cap yields
exactly QUERY_MAX_ROWS rows; and a statement already containing that
substring is passed through with no second cap added. -/
theorem executeQuery_row_cap (sql : Str) (table : List Row) :
    ((str "select").isPrefixOf (lowerStr (trimList sql)) = true →
     containsSub (str "limit") (lowerStr (trimList sql)) = false →
       mysqlRewrite sql = trimList sql ++ str " LIMIT " ++ natStr QUERY_MAX_ROWS ∧
       postgresRewrite sql = trimList sql ++ str " LIMIT " ++ natStr QUERY_MAX_ROWS ∧
       sqliteRewrite sql = trimList sql ++ str " LIMIT " ++ natStr QUERY_MAX_ROWS ∧
       (QUERY_MAX_ROWS < table.length →
         (mysqlExecuteQuery table sql).rowCount = QUERY_MAX_ROWS ∧
         (postgresExecuteQuery table sql).rowCount = QUERY_MAX_ROWS ∧
         (sqliteExecuteQuery table sql).rowCount = QUERY_MAX_ROWS)) ∧
    ((str "select").isPrefixOf (lowerStr (trimList sql)) = true →
     containsSub (str "top ") (lowerStr (trimList sql)) = false →
       sqlserverRewrite sql =
         str "SELECT TOP " ++ natStr QUERY_MAX_ROWS ++ (trimList sql).drop 6 ∧
       (QUERY_MAX_ROWS < table.length →
         (sqlserverExecuteQuery table sql).rowCount = QUERY_MAX_ROWS)) ∧
    (containsSub (str "limit") (lowerStr (trimList sql)) = true →
       mysqlRewrite sql = trimList sql ∧ postgresRewrite sql = trimList sql ∧
       sqliteRewrite sql = trimList sql) ∧
    (containsSub (str "top ") (lowerStr (trimList sql)) = true →
       sqlserverRewrite sql = trimList sql) := by
  refine ⟨?_, ?_, ?_, ?_⟩
  · intro hsel hlim
    have hcap : limitDriverRun table
        (trimList sql ++ (str " LIMIT " ++ natStr QUERY_MAX_ROWS)) =
        table.take QUERY_MAX_ROWS := by
      unfold limitDriverRun
      rw [if_pos (isSuffixOf_append_self _ _)]
    have hmy : mysqlRewrite sql = trimList sql ++ str " LIMIT " ++ natStr QUERY_MAX_ROWS := by
      simp [mysqlRewrite, hsel, hlim, List.append_assoc]
    have hpg : postgresRewrite sql =
        trimList sql ++ str " LIMIT " ++ natStr QUERY_MAX_ROWS := by
      simp [postgresRewrite, hsel, hlim, List.append_assoc]
    have hlite : sqliteRewrite sql =
        trimList sql ++ str " LIMIT " ++ natStr QUERY_MAX_ROWS := by
      simp [sqliteRewrite, hsel, hlim, List.append_assoc]
    refine ⟨hmy, hpg, hlite, ?_⟩
    intro hlen
    have htake : (table.take QUERY_MAX_ROWS).length = QUERY_MAX_ROWS := by
      rw [List.length_take]
      exact Nat.min_eq_left (Nat.le_of_lt hlen)
    refine ⟨?_, ?_, ?_⟩ <;>
      simp [mysqlExecuteQuery, postgresExecuteQuery, sqliteExecuteQuery,
        hmy, hpg, hlite, List.append_assoc, hcap, htake]
  · intro hsel htop
    have hrw : sqlserverRewrite sql =
        str "SELECT TOP " ++ natStr QUERY_MAX_ROWS ++ (trimList sql).drop 6 := by
      simp [sqlserverRewrite, hsel, htop, replaceLeadingSelect, List.append_assoc]
    refine ⟨hrw, ?_⟩
    intro hlen
    have htake : (table.take QUERY_MAX_ROWS).length = QUERY_MAX_ROWS := by
      rw [List.length_take]
      exact Nat.min_eq_left (Nat.le_of_lt hlen)
    have hdrv : topDriverRun table
        ((str "SELECT TOP " ++ natStr QUERY_MAX_ROWS) ++ (trimList sql).drop 6) =
        table.take QUERY_MAX_ROWS := by
      unfold topDriverRun
      rw [if_pos (isPrefixOf_append_self _ _)]
    simp only [sqlserverExecuteQuery, hrw, List.append_assoc] at hdrv ⊢
    rw [hdrv, htake]
  · intro hlim
    refine ⟨?_, ?_, ?_⟩ <;>
      simp [mysqlRewrite, postgresRewrite, sqliteRewrite, hlim]
  · intro htop
    simp [sqlserverRewrite, htop]

/-- Witness for C3 amended: concrete capped and already-capped queries. -/
theorem executeQuery_row_cap_witness :
    mysqlRewrite (str "SELECT * FROM t") =
      trimList (str "SELECT * FROM t") ++ str " LIMIT " ++ natStr QUERY_MAX_ROWS ∧
    (mysqlExecuteQuery sampleBigTable (str "SELECT * FROM t")).rowCount = QUERY_MAX_ROWS ∧
    sqlserverRewrite (str "SELECT * FROM t") =
      str "SELECT TOP " ++ natStr QUERY_MAX_ROWS ++ (trimList (str "SELECT * FROM t")).drop 6 ∧
    mysqlRewrite (str "SELECT * FROM t LIMIT 5") = trimList (str "SELECT * FROM t LIMIT 5") ∧
    sqlserverRewrite (str "SELECT TOP 5 * FROM t") = trimList (str "SELECT TOP 5 * FROM t") := by
  have hlen : QUERY_MAX_ROWS < sampleBigTable.length := by
    simp [sampleBigTable, QUERY_MAX_ROWS]
  have h1 := (executeQuery_row_cap (str "SELECT * FROM t") sampleBigTable).1
    (by decide) (by decide)
  have h2 := (executeQuery_row_cap (str "SELECT * FROM t") sampleBigTable).2.1
    (by decide) (by decide)
  have h3 := (executeQuery_row_cap (str "SELECT * FROM t LIMIT 5") sampleBigTable).2.2.1
    (by decide)
  have h4 := (executeQuery_row_cap (str "SELECT TOP 5 * FROM t") sampleBigTable).2.2.2
    (by decide)
  exact ⟨h1.1, (h1.2.2.2 hlen).1, h2.1, h3.1, h4⟩

/-- C9: a statement whose trimmed text begins with WITH in any letter
case is sent to the backend exactly as trimmed by every relational
adapter - none of the cap rewrites touches it. -/
theorem cte_queries_not_capped (sql : Str)
    (h : (str "with").isPrefixOf (lowerStr (trimList sql)) = true) :
    mysqlRewrite sql = trimList sql ∧ postgresRewrite sql = trimList sql ∧
    sqliteRewrite sql = trimList sql ∧ sqlserverRewrite sql = trimList sql := by
  have hsel : (str "select").isPrefixOf (lowerStr (trimList sql)) = false := by
    by_contra hq
    have hq' : (str "select").isPrefixOf (lowerStr (trimList sql)) = true := by
      simpa using hq
    obtain ⟨r, hr⟩ := (isPrefixOf_true_iff _ _).mp hq'
    obtain ⟨r2, hr2⟩ := (isPrefixOf_true_iff _ _).mp h
    rw [hr] at hr2
    simp [str] at hr2
  refine ⟨?_, ?_, ?_, ?_⟩ <;>
    simp [mysqlRewrite, postgresRewrite, sqliteRewrite, sqlserverRewrite, hsel]

/-- C4: in the execute orchestration flow, once connect has succeeded,
disconnect runs exactly once whatever executeQuery does - on the
success path and on the throwing path alike - and the flow ends with no
connection held. -/
theorem executeRoute_disconnects_once (rawSql : Str)
    (execOutcome : Except AppError QueryResultM) (s0 : RouteState)
    (hval : validateSql (sanitizeSql rawSql) = .ok ()) :
    (executeRoute rawSql (.ok ()) execOutcome s0).2.disconnectCalls =
      s0.disconnectCalls + 1 ∧
    (executeRoute rawSql (.ok ()) execOutcome s0).2.connected = false := by
  cases execOutcome <;>
    simp [executeRoute, tryCatchM, tryFinallyM, routeBind, routeOfExcept, routePure,
      connectOp, disconnectOp, executeOp, hval]

/-- Witness for C4: one throwing and one succeeding execution, each
with exactly one disconnect. -/
theorem executeRoute_disconnects_once_witness :
    (executeRoute (str "SELECT 1") (.ok ())
        (.error ⟨str "boom", ErrorCode.INVALID_SQL, none⟩)
        ⟨false, 0⟩).2.disconnectCalls = (⟨false, 0⟩ : RouteState).disconnectCalls + 1 ∧
    (executeRoute (str "SELECT 1") (.ok ()) (.ok ⟨[], 0⟩)
        ⟨false, 0⟩).2.disconnectCalls = (⟨false, 0⟩ : RouteState).disconnectCalls + 1 :=
  ⟨(executeRoute_disconnects_once (str "SELECT 1")
      (.error ⟨str "boom", ErrorCode.INVALID_SQL, none⟩) ⟨false, 0⟩ (by decide)).1,
   (executeRoute_disconnects_once (str "SELECT 1") (.ok ⟨[], 0⟩) ⟨false, 0⟩
      (by decide)).1⟩

/-- A one-table catalog for concrete schema-cache runs. -/
def sampleCatalog : MySqlCatalog :=
  ⟨[⟨str "t", some 3⟩], [⟨str "t", str "id", str "int", str "NO", none, str "PRI"⟩]⟩

/-- A one-collection backend for concrete schema runs. -/
def sampleCollections : List MongoCollection := [⟨str "users", []⟩]

/-- C6: on a connected adapter with a cold cache, a second getSchema
returns the very Schema the first one returned, and the backend
metadata is fetched exactly once across both calls - for the MySQL and
the MongoDB adapter alike. -/
theorem getSchema_cached (cat : MySqlCatalog) (collections : List MongoCollection)
    (st : AdapterState) (hconn : st.connected = true) (hcache : st.schema = none) :
    ((mysqlGetSchema cat (mysqlGetSchema cat st).2).1 = (mysqlGetSchema cat st).1 ∧
     (mysqlGetSchema cat st).1 = .ok (mysqlBuildSchema cat) ∧
     (mysqlGetSchema cat st).2.metadataFetches = st.metadataFetches + 1 ∧
     (mysqlGetSchema cat (mysqlGetSchema cat st).2).2.metadataFetches =
       st.metadataFetches + 1) ∧
    ((mongoGetSchema collections (mongoGetSchema collections st).2).1 =
       (mongoGetSchema collections st).1 ∧
     (mongoGetSchema collections st).1 = .ok (mongoBuildSchema collections) ∧
     (mongoGetSchema collections st).2.metadataFetches = st.metadataFetches + 1 ∧
     (mongoGetSchema collections (mongoGetSchema collections st).2).2.metadataFetches =
       st.metadataFetches + 1) := by
  constructor <;>
    simp [mysqlGetSchema, mongoGetSchema, hcache, hconn]

/-- Witness for C6 on concrete backends and a fresh connected state. -/
theorem getSchema_cached_witness :
    (mysqlGetSchema sampleCatalog (mysqlGetSchema sampleCatalog ⟨true, none, 0⟩).2).1 =
      (mysqlGetSchema sampleCatalog ⟨true, none, 0⟩).1 ∧
    (mongoGetSchema sampleCollections
        (mongoGetSchema sampleCollections ⟨true, none, 0⟩).2).2.metadataFetches =
      (⟨true, none, 0⟩ : AdapterState).metadataFetches + 1 :=
  ⟨(getSchema_cached sampleCatalog sampleCollections ⟨true, none, 0⟩ rfl rfl).1.1,
   (getSchema_cached sampleCatalog sampleCollections ⟨true, none, 0⟩ rfl rfl).2.2.2.2⟩

/-- C10: a MongoDB collection with no documents still shows up in the
schema, as a table with exactly the identifier column - ObjectId, not
nullable, primary key - and a row count of zero. -/
theorem mongoGetSchema_empty_collection (collections : List MongoCollection)
    (st : AdapterState) (c : MongoCollection)
    (hconn : st.connected = true) (hcache : st.schema = none)
    (hc : c ∈ collections) (hempty : c.docs = []) :
    ∃ sch, (mongoGetSchema collections st).1 = .ok sch ∧
      (⟨c.name, none, [⟨str "_id", str "ObjectId", false, none, true⟩], some 0⟩ : Table)
        ∈ sch.tables := by
  refine ⟨mongoBuildSchema collections, by simp [mongoGetSchema, hcache, hconn], ?_⟩
  simp only [mongoBuildSchema]
  refine List.mem_map.mpr ⟨c, hc, ?_⟩
  simp [mongoBuildTable, hempty]

/-- Witness for C10 at a concrete empty collection. -/
theorem mongoGetSchema_empty_collection_witness :
    ∃ sch, (mongoGetSchema sampleCollections ⟨true, none, 0⟩).1 = .ok sch ∧
      (⟨str "users", none, [⟨str "_id", str "ObjectId", false, none, true⟩],
        some 0⟩ : Table) ∈ sch.tables :=
  mongoGetSchema_empty_collection sampleCollections ⟨true, none, 0⟩
    ⟨str "users", []⟩ rfl rfl (by decide) rfl

/-- The column line exactly as claim C7 words it, for every entity:
name, type, optional PRIMARY KEY and NOT NULL markers, indented. -/
def claimedColumnLine (col : Column) : Str :=
  str "  " ++ col.name ++ str " " ++ col.dataType ++
    (if col.isPrimaryKey then str " PRIMARY KEY" else []) ++
    (if !col.nullable then str " NOT NULL" else [])

/-- An entity block as claim C7 words it: the header line followed by
the column lines, joined by newlines. -/
def claimedEntityBlock (header : Str) (cols : List Column) : Str :=
  joinStr (str "\n") (header :: cols.map claimedColumnLine)

/-- The relational schema context as claim C7 words it. -/
def claimedRelationalContext (schema : Schema) : Str :=
  joinStr (str "\n\n") (schema.tables.map fun t =>
    claimedEntityBlock (str "Table: " ++ t.name) t.columns)

/-- The MongoDB schema context as claim C7 words it - with the
claimed column-line format applied to collections too. -/
def claimedMongoContext (schema : Schema) : Str :=
  joinStr (str "\n\n") (schema.tables.map fun t =>
    claimedEntityBlock (str "Collection: " ++ t.name ++ str " (" ++
      natStr (t.rowCount.getD 0) ++ str " documents)") t.columns)

/-- The MongoDB column line the code actually renders, in the amended
claim wording: name, colon, type, optional primary marker. -/
def amendedMongoLine (col : Column) : Str :=
  str "  " ++ col.name ++ str ": " ++ col.dataType ++
    (if col.isPrimaryKey then str " (primary)" else [])

/-- The MongoDB schema context as the amended claim words it. -/
def amendedMongoContext (schema : Schema) : Str :=
  joinStr (str "\n\n") (schema.tables.map fun t =>
    joinStr (str "\n")
      ((str "Collection: " ++ t.name ++ str " (" ++ natStr (t.rowCount.getD 0) ++
        str " documents)") :: t.columns.map amendedMongoLine))

/-- A one-collection Schema as MongoDBAdapter.getSchema builds it. -/
def sampleMongoSchema : Schema :=
  ⟨[⟨str "users", none, [⟨str "_id", str "ObjectId", false, none, true⟩], some 0⟩]⟩

/-- C7 counterexample: the MongoDB adapter renders its column lines as
name: type (primary), not as the claimed column type with PRIMARY KEY
and NOT NULL markers, so on a concrete Schema the rendered text differs
from the text the claim describes. -/
theorem mongoSchemaContext_format_counterexample :
    mongoSchemaContext sampleMongoSchema =
      str "Collection: users (0 documents)\n  _id: ObjectId (primary)" ∧
    claimedMongoContext sampleMongoSchema =
      str "Collection: users (0 documents)\n  _id ObjectId PRIMARY KEY NOT NULL" ∧
    ¬ mongoSchemaContext sampleMongoSchema = claimedMongoContext sampleMongoSchema := by
  decide

theorem columnLine_agree (col : Column) : relationalColumnLine col = claimedColumnLine col := by
  unfold relationalColumnLine claimedColumnLine
  by_cases hpk : col.isPrimaryKey <;> by_cases hn : col.nullable <;>
    simp [hpk, hn, List.append_assoc]

/-- C7 amended: the schema context is a pure function of the Schema
(determinism is inherent to that); on every Schema whose tables all
carry at least one column the relational rendering is exactly the
claimed header plus column type [PRIMARY KEY] [NOT NULL] lines, while
the MongoDB rendering uses Collection headers with document counts and
column: type ( (primary) ) lines. -/
theorem schemaContext_deterministic_format (schema : Schema)
    (hcols : ∀ t ∈ schema.tables, t.columns ≠ []) :
    mysqlSchemaContext schema = claimedRelationalContext schema ∧
    mongoSchemaContext schema = amendedMongoContext schema := by
  constructor
  · unfold mysqlSchemaContext claimedRelationalContext
    congr 1
    apply List.map_congr_left
    intro t ht
    have hne : t.columns.map claimedColumnLine ≠ [] := by
      cases hcc : t.columns with
      | nil => exact absurd hcc (hcols t ht)
      | cons a l => simp
    rw [claimedEntityBlock, joinStr_cons hne]
    have hmap : t.columns.map relationalColumnLine = t.columns.map claimedColumnLine :=
      List.map_congr_left (fun c _ => columnLine_agree c)
    simp [List.append_assoc, hmap]
  · unfold mongoSchemaContext amendedMongoContext
    congr 1
    apply List.map_congr_left
    intro t ht
    have hne : t.columns.map amendedMongoLine ≠ [] := by
      cases hcc : t.columns with
      | nil => exact absurd hcc (hcols t ht)
      | cons a l => simp
    rw [joinStr_cons hne]
    have hmap : t.columns.map mongoColumnLine = t.columns.map amendedMongoLine :=
      List.map_congr_left (fun c _ => rfl)
    have hsplit : str " documents)\n" = str " documents)" ++ str "\n" := by decide
    simp [hsplit, List.append_assoc, hmap]

/-- Witness for C7 amended on a concrete one-collection Schema. -/
theorem schemaContext_deterministic_format_witness :
    mysqlSchemaContext sampleMongoSchema = claimedRelationalContext sampleMongoSchema ∧
    mongoSchemaContext sampleMongoSchema = amendedMongoContext sampleMongoSchema :=
  schemaContext_deterministic_format sampleMongoSchema (by decide)

/-- Witness for C9 at a concrete common-table-expression query. -/
theorem cte_queries_not_capped_witness :
    mysqlRewrite (str "WITH c AS (SELECT 1) SELECT * FROM c") =
      trimList (str "WITH c AS (SELECT 1) SELECT * FROM c") ∧
    sqlserverRewrite (str "WITH c AS (SELECT 1) SELECT * FROM c") =
      trimList (str "WITH c AS (SELECT 1) SELECT * FROM c") :=
  ⟨(cte_queries_not_capped (str "WITH c AS (SELECT 1) SELECT * FROM c") (by decide)).1,
   (cte_queries_not_capped (str "WITH c AS (SELECT 1) SELECT * FROM c") (by decide)).2.2.2⟩

end TalkToData
